import Mathlib

/-!
Verification of the amqp-lapin-helper dispatch layer.

Shallow embedding of src/lib.rs: the publisher path (encode, timer,
transport publish), the handler task body (consume_async), the listener
registry (first-match lookup), the consumer lifecycle (add_listener,
spawn, get_consumer) and a small-step machine for the dispatch loop
(Consumer::consume) with per-listener semaphores and independently
scheduled handler tasks.

External collaborators (the lapin transport, bincode, prometheus) are
modelled at their boundary: transport calls are parameters returning
the outcome the broker would give, encoding is carried as data on the
entity, and metric observations become trace events. Rust panics are
modelled as the error side of Except with an explicit PanicMsg value
standing for the panic message string.
-/

/-- Requeue flag, mirroring the crate alias. -/
abbrev Requeue := Bool

/-- Opaque transport-layer error (lapin::Error). -/
inductive AmqpError where
  | mk (code : Nat)
deriving DecidableEq

/-- Opaque serialization error (bincode::Error). -/
inductive BincodeError where
  | mk (code : Nat)
deriving DecidableEq

/-- Opaque confirmation token (lapin PublisherConfirm). -/
inductive PublisherConfirm where
  | mk (tag : Nat)
deriving DecidableEq

/-- The crate error enum, restricted to the variants the modelled paths
can produce. -/
inductive Error where
  | amqp (e : AmqpError)
  | bincode (e : BincodeError)
deriving DecidableEq

/-- Rust panic messages reached by the modelled code, as symbolic values.
noListenersFound stands for the message No listeners found,
consumerNotSet for the message A consumer has not been set,
publisherChannelIsNone for the message Publisher channel is None,
unwrapNone for the panic of Option::unwrap on None, and
noRegisteredListeners carries the exchange of the unroutable delivery
and whether the best-effort nack itself also failed. -/
inductive PanicMsg where
  | noListenersFound
  | consumerNotSet
  | publisherChannelIsNone
  | unwrapNone
  | noRegisteredListeners (exchange : String) (nackFailed : Bool)
deriving DecidableEq

/-- One inbound delivery (lapin message::Delivery), with the fields the
code reads: exchange, routing_key, redelivered, body. -/
structure Delivery where
  exchange : String
  routingKey : String
  redelivered : Bool
  body : List Nat
deriving DecidableEq

/-- lapin BasicNackOptions; Default derives to all-false fields. -/
structure BasicNackOptions where
  multiple : Bool
  requeue : Bool
deriving DecidableEq

/-- The derived Default of BasicNackOptions: multiple = false,
requeue = false. -/
def BasicNackOptions.default : BasicNackOptions :=
  { multiple := false, requeue := false }

/-- Application handler (trait BrokerListener): exchange_name,
max_concurrent_tasks (with the trait default of 1), and consume, whose
Err(requeue) side carries the requeue flag. -/
structure BrokerListener where
  exchangeName : String
  maxConcurrentTasks : Nat := 1
  consume : Delivery → Except Requeue Unit

/-- Listener wrapper: the handler plus its semaphore.  semPermits is the
number of permits the semaphore was created with. -/
structure Listener where
  inner : BrokerListener
  semPermits : Nat

/-- Listener::new: the semaphore is created with
listener.max_concurrent_tasks() permits. -/
def Listener.new (l : BrokerListener) : Listener :=
  { inner := l, semPermits := l.maxConcurrentTasks }

/-- A value implementing BrokerPublish + Serialize: its exchange name and
the outcome bincode::serialize would give on it (the serialized bytes, or
the encode error). -/
structure Entity where
  exchangeName : String
  encodeResult : Except BincodeError (List Nat)

/-- Observable actions of the publisher path, in program order. -/
inductive PubEvent where
  | timerStart (exchange routingKey : String)
  | transportPublish (exchange routingKey : String) (payload : List Nat)
  | timerObserve
deriving DecidableEq

/-- The publisher: a channel that is None until setup_publisher runs. -/
structure Publisher where
  channel : Option Unit

/-- Publisher::channel(): expect panics with the message
Publisher channel is None when the channel was never set. -/
def Publisher.channelFn (p : Publisher) : Except PanicMsg Unit :=
  match p.channel with
  | some c => Except.ok c
  | none => Except.error PanicMsg.publisherChannelIsNone

/-- Transport collaborator for basic_publish: exchange, routing key and
payload in, confirmation or lapin error out. -/
abbrev Transport := String → String → List Nat → Except AmqpError PublisherConfirm

/-- Publisher::publish.  Serializes first (early return on encode error,
before the timer starts), then starts the duration timer, resolves the
channel (panicking if unset), performs the single transport publish, and
observes the timer before mapping the transport error into Error::Amqp.
Returns the emitted events and either the panic or the Result value. -/
def Publisher.publish (p : Publisher) (transport : Transport) (entity : Entity)
    (routingKey : String) :
    List PubEvent × Except PanicMsg (Except Error PublisherConfirm) :=
  match entity.encodeResult with
  | Except.error e => ([], Except.ok (Except.error (Error.bincode e)))
  | Except.ok serialized =>
    match p.channelFn with
    | Except.error m => ([PubEvent.timerStart entity.exchangeName routingKey], Except.error m)
    | Except.ok _ =>
      ([PubEvent.timerStart entity.exchangeName routingKey,
        PubEvent.transportPublish entity.exchangeName routingKey serialized,
        PubEvent.timerObserve],
       Except.ok (match transport entity.exchangeName routingKey serialized with
                  | Except.ok c => Except.ok c
                  | Except.error e => Except.error (Error.amqp e)))

/-- Publisher::publish_raw: identical to publish but without encoding. -/
def Publisher.publish_raw (p : Publisher) (transport : Transport) (exchange routingKey : String)
    (msg : List Nat) :
    List PubEvent × Except PanicMsg (Except Error PublisherConfirm) :=
  match p.channelFn with
  | Except.error m => ([PubEvent.timerStart exchange routingKey], Except.error m)
  | Except.ok _ =>
    ([PubEvent.timerStart exchange routingKey,
      PubEvent.transportPublish exchange routingKey msg,
      PubEvent.timerObserve],
     Except.ok (match transport exchange routingKey msg with
                | Except.ok c => Except.ok c
                | Except.error e => Except.error (Error.amqp e)))

/-- Number of timer observations in a publisher trace. -/
def pubObserves (t : List PubEvent) : Nat :=
  t.countP fun e => match e with
    | PubEvent.timerObserve => true
    | _ => false

/-- Number of transport publish calls in a publisher trace. -/
def pubCalls (t : List PubEvent) : Nat :=
  t.countP fun e => match e with
    | PubEvent.transportPublish _ _ _ => true
    | _ => false

/-- Observable actions of one spawned handler task (consume_async), in
program order: timer start, the consume call and its return, the permit
drop, the permits_used gauge decrement, the timer observation, then the
acknowledgement branch with its log events. -/
inductive TaskEvent where
  | timerStart (exchange : String)
  | consumeCall
  | consumeReturn
  | permitRelease
  | gaugeDec (exchange : String)
  | timerObserve
  | ackSend
  | ackFailLog (e : AmqpError)
  | rejectSend (requeue : Bool)
  | rejectFailLog (requeue : Bool) (e : AmqpError)
  | rejectSentLog (requeue : Bool)
deriving DecidableEq

/-- consume_async: the body of one spawned handler task.  ackRes and
rejectRes are the outcomes the transport would give to the single ack or
reject attempt; the trace records what the task does with them.  The
permit is dropped immediately after consume returns, before the gauge
decrement, the timer observation and any acknowledgement I/O; an ack or
reject failure only appends a log event. -/
def consume_async (d : Delivery) (l : Listener)
    (ackRes rejectRes : Except AmqpError Unit) : List TaskEvent :=
  [TaskEvent.timerStart l.inner.exchangeName,
   TaskEvent.consumeCall,
   TaskEvent.consumeReturn,
   TaskEvent.permitRelease,
   TaskEvent.gaugeDec d.exchange,
   TaskEvent.timerObserve]
  ++ match l.inner.consume d with
     | Except.error requeue =>
       TaskEvent.rejectSend requeue ::
         (match rejectRes with
          | Except.error e => [TaskEvent.rejectFailLog requeue e]
          | Except.ok _ => [TaskEvent.rejectSentLog requeue])
     | Except.ok _ =>
       TaskEvent.ackSend ::
         (match ackRes with
          | Except.error e => [TaskEvent.ackFailLog e]
          | Except.ok _ => [])

/-- Number of ack calls in a handler-task trace. -/
def acksIn (t : List TaskEvent) : Nat :=
  t.countP fun e => match e with
    | TaskEvent.ackSend => true
    | _ => false

/-- Number of reject calls in a handler-task trace, any flag. -/
def rejectsIn (t : List TaskEvent) : Nat :=
  t.countP fun e => match e with
    | TaskEvent.rejectSend _ => true
    | _ => false

/-- Number of reject calls carrying a given requeue flag. -/
def rejectsWith (rq : Bool) (t : List TaskEvent) : Nat :=
  t.countP fun e => match e with
    | TaskEvent.rejectSend b => b == rq
    | _ => false

/-- Number of timer observations in a handler-task trace. -/
def taskObserves (t : List TaskEvent) : Nat :=
  t.countP fun e => match e with
    | TaskEvent.timerObserve => true
    | _ => false

/-- Whether an event is an acknowledgement send (ack or reject). -/
def isAckRejectSend : TaskEvent → Bool
  | TaskEvent.ackSend => true
  | TaskEvent.rejectSend _ => true
  | _ => false

/-- The lapin consumer handed to Consumer::consume, modelled as the
ordered stream of items the transport will yield: deliveries or a
transport error. -/
abbrev AmqpConsumer := List (Except AmqpError Delivery)

/-- The Consumer struct: channel, the lapin consumer once set, and the
listener list, which is Some from construction until spawn or
get_consumer takes it. -/
structure ConsumerState where
  channel : Option Unit
  consumer : Option AmqpConsumer
  listeners : Option (List Listener)

/-- Consumer::new: no channel, no consumer, an empty listener list. -/
def ConsumerState.new : ConsumerState :=
  { channel := none, consumer := none, listeners := some [] }

/-- Consumer::set_consumer. -/
def ConsumerState.set_consumer (c : ConsumerState) (k : AmqpConsumer) : ConsumerState :=
  { c with consumer := some k }

/-- Consumer::add_listener: expect on the listener list (panicking with
No listeners found when it was taken), then push Listener::new. -/
def ConsumerState.add_listener (c : ConsumerState) (l : BrokerListener) :
    Except PanicMsg ConsumerState :=
  match c.listeners with
  | none => Except.error PanicMsg.noListenersFound
  | some ls => Except.ok { c with listeners := some (ls ++ [Listener.new l]) }

/-- Consumer::spawn: clone the consumer (panicking when unset), take the
listener list out (panicking with No listeners found when already taken,
and leaving None behind), and hand both to the spawned
Consumer::consume task, modelled by the dispatch machine below. -/
def ConsumerState.spawn (c : ConsumerState) :
    Except PanicMsg (ConsumerState × AmqpConsumer × List Listener) :=
  match c.consumer with
  | none => Except.error PanicMsg.consumerNotSet
  | some k =>
    match c.listeners with
    | none => Except.error PanicMsg.noListenersFound
    | some ls => Except.ok ({ c with listeners := none }, k, ls)

/-- Consumer::get_consumer: same extraction as spawn, returning the pair
for manual spawning. -/
def ConsumerState.get_consumer (c : ConsumerState) :
    Except PanicMsg (ConsumerState × AmqpConsumer × List Listener) :=
  match c.consumer with
  | none => Except.error PanicMsg.consumerNotSet
  | some k =>
    match c.listeners with
    | none => Except.error PanicMsg.noListenersFound
    | some ls => Except.ok ({ c with listeners := none }, k, ls)

/-- The registry lookup of Consumer::consume: first listener whose
exchange_name equals the delivery exchange. -/
def findListener (ls : List Listener) (exchange : String) : Option Listener :=
  ls.find? fun l => l.inner.exchangeName == exchange

/-- Position of the first listener whose exchange_name equals the
delivery exchange; the dispatch machine uses the position to address
that listener's semaphore. -/
def findListenerIdx (ls : List Listener) (exchange : String) : Option Nat :=
  match ls with
  | [] => none
  | l :: rest =>
    if l.inner.exchangeName == exchange then some 0
    else (findListenerIdx rest exchange).map (· + 1)

/-- One spawned handler task as the dispatch machine sees it: which
listener it belongs to (by registry position) and whether it is still
inside consume — the interval during which it holds its permit.  After
consume returns the task drops the permit and finishes the trailing
acknowledgement work. -/
structure HTask where
  idx : Nat
  consuming : Bool

/-- Control position of the dispatch loop of Consumer::consume. -/
inductive Phase where
  | fetching
  | holding (d : Delivery)
  | closed
  | errored (e : AmqpError)
  | panicked (m : PanicMsg)

/-- Events the dispatch machine records. -/
inductive MEv where
  | pulled (d : Delivery)
  | streamFailed (e : AmqpError)
  | dispatched (j : Nat) (d : Delivery)
  | nackAttempt (opts : BasicNackOptions)
  | permitReleased (j : Nat)
  | taskDone (j : Nat)

/-- State of the dispatch machine: the remaining transport stream, the
loop control position, per-listener available semaphore permits
(indexed by registry position), the live handler tasks and the event
log. -/
structure MState where
  queue : AmqpConsumer
  phase : Phase
  avail : Nat → Nat
  tasks : List HTask
  events : List MEv

/-- Initial permit count of the listener at position j: the permits its
semaphore was created with (0 outside the registry). -/
def semOf (ls : List Listener) (j : Nat) : Nat :=
  ((ls[j]?).map Listener.semPermits).getD 0

/-- State at the start of Consumer::consume: the whole stream pending,
every semaphore at its initial permit count, no tasks. -/
def initState (ls : List Listener) (q : AmqpConsumer) : MState :=
  { queue := q, phase := Phase.fetching, avail := semOf ls, tasks := [], events := [] }

/-- Number of live tasks of listener j currently inside consume. -/
def countConsuming (ts : List HTask) (j : Nat) : Nat :=
  (ts.filter fun t => t.idx == j && t.consuming).length

/-- Steps taken by the dispatch loop itself.  pullOk, pullFail and
pullEnd model consumer.next(); dispatch models the matched branch:
acquire_owned on the matched listener's semaphore (enabled only when a
permit is available — the await blocks the whole loop otherwise)
followed by task::spawn; noMatch models the unmatched branch: one
best-effort nack with default options, then the panic, whose message
records the nack failure if any. -/
inductive LoopStep (ls : List Listener) : MState → MState → Prop
  | pullOk (s : MState) (d : Delivery) (rest : AmqpConsumer) :
      s.phase = Phase.fetching →
      s.queue = Except.ok d :: rest →
      LoopStep ls s { s with queue := rest, phase := Phase.holding d,
                             events := s.events ++ [MEv.pulled d] }
  | pullFail (s : MState) (e : AmqpError) (rest : AmqpConsumer) :
      s.phase = Phase.fetching →
      s.queue = Except.error e :: rest →
      LoopStep ls s { s with queue := rest, phase := Phase.errored e,
                             events := s.events ++ [MEv.streamFailed e] }
  | pullEnd (s : MState) :
      s.phase = Phase.fetching →
      s.queue = [] →
      LoopStep ls s { s with phase := Phase.closed }
  | dispatch (s : MState) (d : Delivery) (j n : Nat) :
      s.phase = Phase.holding d →
      findListenerIdx ls d.exchange = some j →
      s.avail j = n + 1 →
      LoopStep ls s { s with phase := Phase.fetching,
                             avail := Function.update s.avail j n,
                             tasks := s.tasks ++ [{ idx := j, consuming := true }],
                             events := s.events ++ [MEv.dispatched j d] }
  | noMatch (s : MState) (d : Delivery) (nackRes : Except AmqpError Unit) :
      s.phase = Phase.holding d →
      findListenerIdx ls d.exchange = none →
      LoopStep ls s { s with
        phase := Phase.panicked (PanicMsg.noRegisteredListeners d.exchange
          (match nackRes with | Except.ok _ => false | Except.error _ => true)),
        events := s.events ++ [MEv.nackAttempt BasicNackOptions.default] }

/-- Steps taken by spawned handler tasks, independently of the loop:
finishConsume is the moment consume returns and the permit is dropped
(the semaphore regains one permit); complete removes a task that has
finished its acknowledgement work. -/
inductive TaskStep : MState → MState → Prop
  | finishConsume (s : MState) (pre post : List HTask) (j : Nat) :
      s.tasks = pre ++ { idx := j, consuming := true } :: post →
      TaskStep s { s with tasks := pre ++ { idx := j, consuming := false } :: post,
                          avail := Function.update s.avail j (s.avail j + 1),
                          events := s.events ++ [MEv.permitReleased j] }
  | complete (s : MState) (pre post : List HTask) (j : Nat) :
      s.tasks = pre ++ { idx := j, consuming := false } :: post →
      TaskStep s { s with tasks := pre ++ post,
                          events := s.events ++ [MEv.taskDone j] }

/-- A step of the whole system: the loop or some task moves. -/
inductive Step (ls : List Listener) : MState → MState → Prop
  | loop {s s' : MState} : LoopStep ls s s' → Step ls s s'
  | task {s s' : MState} : TaskStep s s' → Step ls s s'

/-- States reachable by Consumer::consume started on stream q with
registry ls. -/
def Reachable (ls : List Listener) (q : AmqpConsumer) (s : MState) : Prop :=
  Relation.ReflTransGen (Step ls) (initState ls q) s

/-- Semaphore accounting invariant: available permits plus tasks inside
consume equals the permit count the semaphore was created with. -/
def ConsInv (ls : List Listener) (s : MState) : Prop :=
  ∀ j, s.avail j + countConsuming s.tasks j = semOf ls j

theorem countConsuming_append (ts us : List HTask) (j : Nat) :
    countConsuming (ts ++ us) j = countConsuming ts j + countConsuming us j := by
  simp [countConsuming, List.filter_append]

theorem countConsuming_cons (t : HTask) (ts : List HTask) (j : Nat) :
    countConsuming (t :: ts) j =
      (if t.idx == j && t.consuming then 1 else 0) + countConsuming ts j := by
  simp only [countConsuming, List.filter_cons]
  by_cases h : (t.idx == j && t.consuming) = true
  · simp [h, Nat.add_comm]
  · simp [h]

theorem countConsuming_nil (j : Nat) : countConsuming [] j = 0 := rfl

theorem consInv_step {ls : List Listener} {s s' : MState} (h : Step ls s s')
    (hi : ConsInv ls s) : ConsInv ls s' := by
  cases h with
  | loop hl =>
    cases hl with
    | pullOk d rest h1 h2 => exact hi
    | pullFail e rest h1 h2 => exact hi
    | pullEnd h1 h2 => exact hi
    | noMatch d nackRes h1 h2 => exact hi
    | dispatch d j n h1 h2 h3 =>
      intro k
      have hk := hi k
      show Function.update s.avail j n k
          + countConsuming (s.tasks ++ [{ idx := j, consuming := true }]) k = semOf ls k
      rw [countConsuming_append, countConsuming_cons]
      by_cases hkj : k = j
      · subst hkj
        simp [countConsuming_nil]
        omega
      · simp [Function.update_noteq hkj, Ne.symm hkj, countConsuming_nil]
        omega
  | task ht =>
    cases ht with
    | finishConsume pre post j hts =>
      intro k
      have hk := hi k
      rw [hts] at hk
      rw [countConsuming_append, countConsuming_cons] at hk
      show Function.update s.avail j (s.avail j + 1) k
          + countConsuming (pre ++ { idx := j, consuming := false } :: post) k = semOf ls k
      rw [countConsuming_append, countConsuming_cons]
      by_cases hkj : k = j
      · subst hkj
        simp at hk ⊢
        omega
      · simp [Function.update_noteq hkj, Ne.symm hkj] at hk ⊢
        omega
    | complete pre post j hts =>
      intro k
      have hk := hi k
      rw [hts] at hk
      rw [countConsuming_append, countConsuming_cons] at hk
      show s.avail k + countConsuming (pre ++ post) k = semOf ls k
      rw [countConsuming_append]
      by_cases hkj : k = j
      · subst hkj
        simp at hk
        omega
      · simp [Ne.symm hkj] at hk
        omega

theorem consInv_reachable {ls : List Listener} {q : AmqpConsumer} {s : MState}
    (h : Reachable ls q s) : ConsInv ls s := by
  induction h with
  | refl => intro j; simp [initState, countConsuming, semOf]
  | tail hsteps hstep ih => exact consInv_step hstep ih

/-- C1: for every registered handler with max_concurrent_tasks = K, in
every state the dispatch machine can reach, for any stream of arrivals,
at most K handler tasks are inside consume at once; the semaphore of
Listener::new is created with exactly K permits, a dispatch consumes
one permit before spawning, and the permit is held until consume
returns (the finishConsume step is the release point). -/
theorem handler_concurrency_bounded (bs : List BrokerListener) (q : AmqpConsumer)
    (s : MState) (hr : Reachable (bs.map Listener.new) q s) (j : Nat) :
    countConsuming s.tasks j ≤ ((bs[j]?).map BrokerListener.maxConcurrentTasks).getD 0
      ∧ ∀ b : BrokerListener, (Listener.new b).semPermits = b.maxConcurrentTasks := by
  constructor
  · have hinv := consInv_reachable hr j
    have hsem : semOf (bs.map Listener.new) j
        = ((bs[j]?).map BrokerListener.maxConcurrentTasks).getD 0 := by
      simp [semOf, List.getElem?_map, Listener.new, Option.map_map]
      rfl
    rw [← hsem]
    omega
  · intro b
    rfl

/-- Concrete handler used by witnesses. -/
def witnessBL : BrokerListener :=
  { exchangeName := "orders", maxConcurrentTasks := 2, consume := fun _ => Except.ok () }

/-- Witness for C1 at the initial state of a one-handler registry. -/
theorem handler_concurrency_bounded_witness :
    countConsuming (initState ([witnessBL].map Listener.new) []).tasks 0
      ≤ (([witnessBL][0]?).map BrokerListener.maxConcurrentTasks).getD 0
      ∧ ∀ b : BrokerListener, (Listener.new b).semPermits = b.maxConcurrentTasks :=
  handler_concurrency_bounded [witnessBL] [] _ Relation.ReflTransGen.refl 0

/-- C2: in every spawned handler task the permit is released exactly
once, strictly after consume returns and strictly before the ack or
reject call for that message is issued, so the freed slot is visible
while acknowledgement I/O is still in flight. -/
theorem permit_release_once_ordered (d : Delivery) (l : Listener)
    (ackRes rejectRes : Except AmqpError Unit) :
    ∃ pre post, consume_async d l ackRes rejectRes
        = pre ++ TaskEvent.permitRelease :: post
      ∧ TaskEvent.consumeReturn ∈ pre
      ∧ TaskEvent.permitRelease ∉ pre
      ∧ TaskEvent.permitRelease ∉ post
      ∧ ∀ e ∈ pre, isAckRejectSend e = false := by
  refine ⟨[TaskEvent.timerStart l.inner.exchangeName, TaskEvent.consumeCall,
      TaskEvent.consumeReturn],
    TaskEvent.gaugeDec d.exchange :: TaskEvent.timerObserve ::
      (match l.inner.consume d with
       | Except.error requeue =>
         TaskEvent.rejectSend requeue ::
           (match rejectRes with
            | Except.error e => [TaskEvent.rejectFailLog requeue e]
            | Except.ok _ => [TaskEvent.rejectSentLog requeue])
       | Except.ok _ =>
         TaskEvent.ackSend ::
           (match ackRes with
            | Except.error e => [TaskEvent.ackFailLog e]
            | Except.ok _ => [])), ?_, ?_, ?_, ?_, ?_⟩
  · simp [consume_async]
  · simp
  · simp
  · rcases hc : l.inner.consume d with rq | u <;>
      rcases ackRes with ae | au <;> rcases rejectRes with re | ru <;> simp
  · intro e he
    simp only [List.mem_cons, List.not_mem_nil, or_false] at he
    rcases he with h | h | h <;> subst h <;> rfl

/-- C3: a Success outcome yields exactly one ack and zero rejects; a
Failure(requeue) outcome yields exactly one reject carrying exactly
that requeue flag and zero acks; and the counts are the same for every
outcome of the ack or reject send itself, which only adds a log
event — no retry, no escalation. -/
theorem ack_reject_policy (d : Delivery) (l : Listener)
    (ackRes rejectRes : Except AmqpError Unit) :
    (match l.inner.consume d with
     | Except.ok _ =>
       acksIn (consume_async d l ackRes rejectRes) = 1
         ∧ rejectsIn (consume_async d l ackRes rejectRes) = 0
     | Except.error rq =>
       rejectsWith rq (consume_async d l ackRes rejectRes) = 1
         ∧ rejectsIn (consume_async d l ackRes rejectRes) = 1
         ∧ acksIn (consume_async d l ackRes rejectRes) = 0) := by
  rcases hc : l.inner.consume d with rq | u <;>
    rcases ackRes with ae | au <;> rcases rejectRes with re | ru <;>
      simp [consume_async, hc, acksIn, rejectsIn, rejectsWith,
        List.countP_cons, List.countP_append]

theorem findListener_first : ∀ (pre post : List Listener) (a : Listener) (e : String),
    (∀ x ∈ pre, x.inner.exchangeName ≠ e) → a.inner.exchangeName = e →
    findListener (pre ++ a :: post) e = some a := by
  intro pre
  induction pre with
  | nil =>
    intro post a e _ ha
    simp [findListener, ha]
  | cons x xs ih =>
    intro post a e hpre ha
    have hx : (x.inner.exchangeName == e) = false := by
      simp [hpre x (List.mem_cons_self x xs)]
    have hrec := ih post a e (fun y hy => hpre y (List.mem_cons_of_mem x hy)) ha
    simpa [findListener, List.find?_cons, hx] using hrec

theorem findListenerIdx_first : ∀ (pre post : List Listener) (a : Listener) (e : String),
    (∀ x ∈ pre, x.inner.exchangeName ≠ e) → a.inner.exchangeName = e →
    findListenerIdx (pre ++ a :: post) e = some pre.length := by
  intro pre
  induction pre with
  | nil =>
    intro post a e _ ha
    simp [findListenerIdx, ha]
  | cons x xs ih =>
    intro post a e hpre ha
    have hx : (x.inner.exchangeName == e) = false := by
      simp [hpre x (List.mem_cons_self x xs)]
    have hrec := ih post a e (fun y hy => hpre y (List.mem_cons_of_mem x hy)) ha
    simp [findListenerIdx, hx, hrec]

/-- C4: registry lookup is first-match by equality on the exchange
name: with no earlier match, the first-registered matching listener
wins, both as the looked-up value and as the semaphore index the
dispatch machine uses — even when later entries carry the same
exchange; and add_listener appends, so list order is registration
order. -/
theorem lookup_first_match (pre post : List Listener) (a : Listener) (e : String)
    (hpre : ∀ x ∈ pre, x.inner.exchangeName ≠ e) (ha : a.inner.exchangeName = e) :
    findListener (pre ++ a :: post) e = some a
      ∧ findListenerIdx (pre ++ a :: post) e = some pre.length
      ∧ ∀ (c : ConsumerState) (ls : List Listener) (b : BrokerListener),
          c.listeners = some ls →
          c.add_listener b
            = Except.ok { c with listeners := some (ls ++ [Listener.new b]) } := by
  refine ⟨findListener_first pre post a e hpre ha,
          findListenerIdx_first pre post a e hpre ha, ?_⟩
  intro c ls b hc
  simp [ConsumerState.add_listener, hc]

/-- Handler with a different exchange, used by witnesses. -/
def otherBL : BrokerListener :=
  { exchangeName := "billing", consume := fun _ => Except.ok () }

/-- Handler sharing the witness exchange, used to witness duplicate
registration. -/
def dupBL : BrokerListener :=
  { exchangeName := "orders", maxConcurrentTasks := 5,
    consume := fun _ => Except.error true }

/-- Witness for C4: a registry with a non-matching first entry and a
duplicate third entry routes to the second entry. -/
theorem lookup_first_match_witness :
    findListener ([Listener.new otherBL] ++ Listener.new witnessBL :: [Listener.new dupBL])
        "orders" = some (Listener.new witnessBL)
      ∧ findListenerIdx
          ([Listener.new otherBL] ++ Listener.new witnessBL :: [Listener.new dupBL])
          "orders" = some 1
      ∧ ∀ (c : ConsumerState) (ls : List Listener) (b : BrokerListener),
          c.listeners = some ls →
          c.add_listener b
            = Except.ok { c with listeners := some (ls ++ [Listener.new b]) } :=
  lookup_first_match [Listener.new otherBL] [Listener.new dupBL]
    (Listener.new witnessBL) "orders"
    (by intro x hx; simp only [List.mem_singleton] at hx; subst hx; decide) rfl

/-- Entity whose serialization fails, used by counterexamples. -/
def entBad : Entity :=
  { exchangeName := "orders", encodeResult := Except.error (BincodeError.mk 0) }

/-- Entity whose serialization succeeds, used by witnesses. -/
def entGood : Entity :=
  { exchangeName := "orders", encodeResult := Except.ok [1, 2, 3] }

/-- Transport that confirms every publish, used by witnesses. -/
def trOk : Transport := fun _ _ _ => Except.ok (PublisherConfirm.mk 0)

/-- Publisher whose channel has been set. -/
def pSome : Publisher := { channel := some () }

/-- Publisher whose channel was never set. -/
def pNone : Publisher := { channel := none }

/-- Delivery used by witnesses. -/
def dWit : Delivery :=
  { exchange := "orders", routingKey := "rk", redelivered := false, body := [7] }

/-- C5 counterexample: a publish whose encoding fails produces zero
publisher-duration observations, not one — serialize runs before the
timer ever starts, so the early return skips the observation. -/
theorem publish_encode_failure_no_observation :
    pubObserves (Publisher.publish pSome trOk entBad "rk").1 ≠ 1 := by
  decide

/-- C5 amended: every handler-task run observes the consume-duration
histogram exactly once, whatever the outcome and whatever the ack or
reject transport results; with the channel set, publish observes the
publisher-duration histogram exactly once whenever encoding succeeds
(also when the transport publish fails) and zero times when encoding
fails, and publish_raw always observes it exactly once. -/
theorem duration_observation (d : Delivery) (l : Listener)
    (ackRes rejectRes : Except AmqpError Unit) (p : Publisher) (tr : Transport)
    (ent : Entity) (ex rk : String) (msg : List Nat)
    (hch : p.channel = some ()) :
    taskObserves (consume_async d l ackRes rejectRes) = 1
      ∧ pubObserves (Publisher.publish p tr ent rk).1
          = (match ent.encodeResult with
             | Except.ok _ => 1
             | Except.error _ => 0)
      ∧ pubObserves (Publisher.publish_raw p tr ex rk msg).1 = 1 := by
  refine ⟨?_, ?_, ?_⟩
  · rcases hc : l.inner.consume d with rq | u <;>
      rcases ackRes with ae | au <;> rcases rejectRes with re | ru <;>
        simp [consume_async, hc, taskObserves, List.countP_cons, List.countP_append]
  · rcases he : ent.encodeResult with be | bs <;>
      simp [Publisher.publish, Publisher.channelFn, hch, he, pubObserves, List.countP_cons]
  · simp [Publisher.publish_raw, Publisher.channelFn, hch, pubObserves, List.countP_cons]

/-- Witness for C5 amended at concrete inputs. -/
theorem duration_observation_witness :
    taskObserves (consume_async dWit (Listener.new witnessBL)
        (Except.ok ()) (Except.ok ())) = 1
      ∧ pubObserves (Publisher.publish pSome trOk entGood "rk").1
          = (match entGood.encodeResult with
             | Except.ok _ => 1
             | Except.error _ => 0)
      ∧ pubObserves (Publisher.publish_raw pSome trOk "orders" "rk" [1]).1 = 1 :=
  duration_observation dWit (Listener.new witnessBL) (Except.ok ()) (Except.ok ())
    pSome trOk entGood "orders" "rk" [1] rfl

/-- C6: permit acquisition is inline in the dispatch loop: while the
loop holds a message whose matched listener has no available permit,
no loop transition at all is enabled — in particular the next
transport item is not pulled — so the entire loop, all origin keys
included, stalls on this one message until some task releases a
permit. -/
theorem inline_backpressure_stall (ls : List Listener) (s : MState) (d : Delivery)
    (j : Nat) (hph : s.phase = Phase.holding d)
    (hfind : findListenerIdx ls d.exchange = some j) (hav : s.avail j = 0) :
    ¬ ∃ s', LoopStep ls s s' := by
  rintro ⟨s', hstep⟩
  cases hstep with
  | pullOk d2 rest h1 h2 => rw [hph] at h1; cases h1
  | pullFail e rest h1 h2 => rw [hph] at h1; cases h1
  | pullEnd h1 h2 => rw [hph] at h1; cases h1
  | dispatch d2 j2 n h1 h2 h3 =>
    rw [hph] at h1
    injection h1 with hd
    subst hd
    rw [hfind] at h2
    injection h2 with hj
    subst hj
    rw [hav] at h3
    omega
  | noMatch d2 nackRes h1 h2 =>
    rw [hph] at h1
    injection h1 with hd
    subst hd
    rw [hfind] at h2
    cases h2

/-- State used to witness the stalled loop: the matched listener's
permits are exhausted by two running tasks while another message is
pending. -/
def stallState : MState :=
  { queue := [Except.ok dWit], phase := Phase.holding dWit,
    avail := fun _ => 0,
    tasks := [{ idx := 0, consuming := true }, { idx := 0, consuming := true }],
    events := [] }

/-- Witness for C6 at a concrete saturated state. -/
theorem inline_backpressure_stall_witness :
    ¬ ∃ s', LoopStep [Listener.new witnessBL] stallState s' :=
  inline_backpressure_stall [Listener.new witnessBL] stallState dWit 0
    rfl (by decide) rfl

/-- C7: when the loop holds a message with no matching listener, any
loop transition issues exactly one best-effort nack with the default
options (whose requeue field is false) and moves to the panicked
phase; the panic message records a failure of the nack itself instead
of retrying it; and no loop transition leaves the panicked phase, so
the loop never continues to the next message. -/
theorem unroutable_fatal (ls : List Listener) (s s' : MState) (d : Delivery)
    (hph : s.phase = Phase.holding d)
    (hfind : findListenerIdx ls d.exchange = none)
    (hstep : LoopStep ls s s') :
    (∃ b, s'.phase = Phase.panicked (PanicMsg.noRegisteredListeners d.exchange b))
      ∧ s'.events = s.events ++ [MEv.nackAttempt BasicNackOptions.default]
      ∧ s'.queue = s.queue
      ∧ BasicNackOptions.default.requeue = false
      ∧ ∀ s'', ¬ LoopStep ls s' s'' := by
  cases hstep with
  | pullOk d2 rest h1 h2 => rw [hph] at h1; cases h1
  | pullFail e rest h1 h2 => rw [hph] at h1; cases h1
  | pullEnd h1 h2 => rw [hph] at h1; cases h1
  | dispatch d2 j2 n h1 h2 h3 =>
    rw [hph] at h1
    injection h1 with hd
    subst hd
    rw [hfind] at h2
    cases h2
  | noMatch d2 nackRes h1 h2 =>
    rw [hph] at h1
    injection h1 with hd
    subst hd
    refine ⟨⟨_, rfl⟩, rfl, rfl, rfl, ?_⟩
    rintro s'' hstep2
    cases hstep2 with
    | pullOk d3 rest h3 h4 => cases h3
    | pullFail e rest h3 h4 => cases h3
    | pullEnd h3 h4 => cases h3
    | dispatch d3 j3 n h3 h4 h5 => cases h3
    | noMatch d3 nackRes2 h3 h4 => cases h3

/-- State used to witness the unroutable-message panic: a held message
and an empty registry. -/
def unroutedState : MState :=
  { queue := [], phase := Phase.holding dWit, avail := fun _ => 0,
    tasks := [], events := [] }

/-- Witness for C7 at a concrete unroutable delivery with an empty
registry and a successful nack. -/
theorem unroutable_fatal_witness :
    (∃ b, ({ unroutedState with
        phase := Phase.panicked (PanicMsg.noRegisteredListeners dWit.exchange false),
        events := unroutedState.events
          ++ [MEv.nackAttempt BasicNackOptions.default] } : MState).phase
        = Phase.panicked (PanicMsg.noRegisteredListeners dWit.exchange b))
      ∧ ({ unroutedState with
          phase := Phase.panicked (PanicMsg.noRegisteredListeners dWit.exchange false),
          events := unroutedState.events
            ++ [MEv.nackAttempt BasicNackOptions.default] } : MState).events
          = unroutedState.events ++ [MEv.nackAttempt BasicNackOptions.default]
      ∧ ({ unroutedState with
          phase := Phase.panicked (PanicMsg.noRegisteredListeners dWit.exchange false),
          events := unroutedState.events
            ++ [MEv.nackAttempt BasicNackOptions.default] } : MState).queue
          = unroutedState.queue
      ∧ BasicNackOptions.default.requeue = false
      ∧ ∀ s'', ¬ LoopStep [] ({ unroutedState with
          phase := Phase.panicked (PanicMsg.noRegisteredListeners dWit.exchange false),
          events := unroutedState.events
            ++ [MEv.nackAttempt BasicNackOptions.default] } : MState) s'' :=
  unroutable_fatal [] unroutedState _ dWit rfl rfl
    (LoopStep.noMatch unroutedState dWit (Except.ok ()) rfl rfl)

/-- C8: when serialization fails, publish returns the encode error as
Error::Bincode and issues zero transport publish calls; when it
succeeds and the channel is set, the trace holds exactly one transport
publish carrying the serialized payload, and the transport
confirmation or error is handed back untouched (the error merely
wrapped as Error::Amqp), with no retry. -/
theorem publish_encode_gate (p : Publisher) (tr : Transport) (ent : Entity)
    (rk : String) :
    (∀ err, ent.encodeResult = Except.error err →
       (Publisher.publish p tr ent rk).2 = Except.ok (Except.error (Error.bincode err))
         ∧ pubCalls (Publisher.publish p tr ent rk).1 = 0)
      ∧ ∀ bs, ent.encodeResult = Except.ok bs → p.channel = some () →
          (Publisher.publish p tr ent rk).1
              = [PubEvent.timerStart ent.exchangeName rk,
                 PubEvent.transportPublish ent.exchangeName rk bs,
                 PubEvent.timerObserve]
            ∧ pubCalls (Publisher.publish p tr ent rk).1 = 1
            ∧ (Publisher.publish p tr ent rk).2
                = Except.ok (match tr ent.exchangeName rk bs with
                             | Except.ok c => Except.ok c
                             | Except.error e => Except.error (Error.amqp e)) := by
  constructor
  · intro err herr
    simp [Publisher.publish, herr, pubCalls]
  · intro bs hbs hch
    simp [Publisher.publish, hbs, hch, Publisher.channelFn, pubCalls, List.countP_cons]

/-- Witness for C8: both branches at concrete entities. -/
theorem publish_encode_gate_witness :
    ((Publisher.publish pSome trOk entBad "rk").2
        = Except.ok (Except.error (Error.bincode (BincodeError.mk 0)))
      ∧ pubCalls (Publisher.publish pSome trOk entBad "rk").1 = 0)
      ∧ ((Publisher.publish pSome trOk entGood "rk").1
            = [PubEvent.timerStart entGood.exchangeName "rk",
               PubEvent.transportPublish entGood.exchangeName "rk" [1, 2, 3],
               PubEvent.timerObserve]
          ∧ pubCalls (Publisher.publish pSome trOk entGood "rk").1 = 1
          ∧ (Publisher.publish pSome trOk entGood "rk").2
              = Except.ok (match trOk entGood.exchangeName "rk" [1, 2, 3] with
                           | Except.ok c => Except.ok c
                           | Except.error e => Except.error (Error.amqp e))) :=
  ⟨(publish_encode_gate pSome trOk entBad "rk").1 (BincodeError.mk 0) rfl,
   (publish_encode_gate pSome trOk entGood "rk").2 [1, 2, 3] rfl rfl⟩

/-- C9: spawn and get_consumer take the listener list out, leaving
None behind; after either succeeds, a second spawn or get_consumer and
any further add_listener all panic with the No-listeners-found message
(the Except error side is the panic, not a returned error value), so
the consumer can be started at most once. -/
theorem consumer_single_start (c : ConsumerState) (k : AmqpConsumer)
    (ls : List Listener) (hk : c.consumer = some k) (hls : c.listeners = some ls) :
    c.spawn = Except.ok ({ c with listeners := none }, k, ls)
      ∧ c.get_consumer = Except.ok ({ c with listeners := none }, k, ls)
      ∧ ({ c with listeners := none } : ConsumerState).spawn
          = Except.error PanicMsg.noListenersFound
      ∧ ({ c with listeners := none } : ConsumerState).get_consumer
          = Except.error PanicMsg.noListenersFound
      ∧ ∀ b, ({ c with listeners := none } : ConsumerState).add_listener b
          = Except.error PanicMsg.noListenersFound := by
  refine ⟨?_, ?_, ?_, ?_, ?_⟩ <;>
    simp [ConsumerState.spawn, ConsumerState.get_consumer,
      ConsumerState.add_listener, hk, hls]

/-- Consumer used by the C9 witness: freshly built, consumer set. -/
def cWit : ConsumerState := ConsumerState.new.set_consumer []

/-- Witness for C9 at a concrete consumer. -/
theorem consumer_single_start_witness :
    cWit.spawn = Except.ok ({ cWit with listeners := none }, [], [])
      ∧ cWit.get_consumer = Except.ok ({ cWit with listeners := none }, [], [])
      ∧ ({ cWit with listeners := none } : ConsumerState).spawn
          = Except.error PanicMsg.noListenersFound
      ∧ ({ cWit with listeners := none } : ConsumerState).get_consumer
          = Except.error PanicMsg.noListenersFound
      ∧ ∀ b, ({ cWit with listeners := none } : ConsumerState).add_listener b
          = Except.error PanicMsg.noListenersFound :=
  consumer_single_start cWit [] [] rfl rfl

/-- C10 counterexample: publish on a publisher whose channel was never
set, applied to a value whose encoding fails, returns the encode error
as an ordinary Result value instead of panicking — serialize runs and
returns before the channel accessor is ever reached. -/
theorem publish_none_channel_no_panic :
    (Publisher.publish pNone trOk entBad "rk").2
      = Except.ok (Except.error (Error.bincode (BincodeError.mk 0))) := rfl

/-- C10 amended: publish_raw on a publisher whose channel was never
set always panics with the Publisher-channel-is-None message, and
publish does so whenever encoding succeeds; when encoding fails,
publish instead returns the encode error without touching the channel;
under the precondition that the channel has been set, the channel
accessor panic branch is unreachable and neither operation panics. -/
theorem channel_panic_policy (tr : Transport) (ent : Entity) (ex rk : String)
    (msg bs : List Nat) (p : Publisher) :
    (Publisher.publish_raw pNone tr ex rk msg).2
        = Except.error PanicMsg.publisherChannelIsNone
      ∧ (ent.encodeResult = Except.ok bs →
          (Publisher.publish pNone tr ent rk).2
            = Except.error PanicMsg.publisherChannelIsNone)
      ∧ (∀ err, ent.encodeResult = Except.error err →
          (Publisher.publish pNone tr ent rk).2
            = Except.ok (Except.error (Error.bincode err)))
      ∧ (p.channel = some () →
          p.channelFn = Except.ok ()
            ∧ (∃ v, (Publisher.publish p tr ent rk).2 = Except.ok v)
            ∧ ∃ v, (Publisher.publish_raw p tr ex rk msg).2 = Except.ok v) := by
  refine ⟨?_, ?_, ?_, ?_⟩
  · simp [Publisher.publish_raw, Publisher.channelFn, pNone]
  · intro hok
    simp [Publisher.publish, hok, Publisher.channelFn, pNone]
  · intro err herr
    simp [Publisher.publish, herr]
  · intro hch
    refine ⟨by simp [Publisher.channelFn, hch], ?_, ?_⟩
    · rcases he : ent.encodeResult with be | bs2 <;>
        simp [Publisher.publish, he, Publisher.channelFn, hch]
    · simp [Publisher.publish_raw, Publisher.channelFn, hch]

/-- Witness for C10 amended: the panic on an encodable value, the
plain return on a non-encodable one, and the set-channel accessor. -/
theorem channel_panic_policy_witness :
    (Publisher.publish pNone trOk entGood "rk").2
        = Except.error PanicMsg.publisherChannelIsNone
      ∧ (Publisher.publish pNone trOk entBad "rk").2
          = Except.ok (Except.error (Error.bincode (BincodeError.mk 0)))
      ∧ pSome.channelFn = Except.ok () :=
  ⟨(channel_panic_policy trOk entGood "orders" "rk" [1] [1, 2, 3] pNone).2.1 rfl,
   (channel_panic_policy trOk entBad "orders" "rk" [1] [1, 2, 3] pNone).2.2.1
     (BincodeError.mk 0) rfl,
   ((channel_panic_policy trOk entGood "orders" "rk" [1] [1, 2, 3] pSome).2.2.2 rfl).1⟩
